import Mathlib

/-!
Verification of the barcode/QR generator backend (`src/backend/server.py`).

The service is a FastAPI app over a MongoDB document store with two
collections (`db.barcodes`, `db.qrcodes`).  We embed it shallowly:

* a stored document / API response is a `Record`;
* the MongoDB collection is a `List Record` in insertion order
  (`insert_one` appends, `find_one` returns the first match in natural
  order, `delete_one` removes the first match and reports a count,
  `find().sort("created_at", -1)` returns all documents sorted by
  `created_at` descending);
* an `HTTPException` is an `HTTPError` (status code and detail), and a
  handler returns `Except HTTPError α` together with the post-state of
  the collection it touches;
* the external encoding libraries (`python-barcode`'s `Code128` +
  `ImageWriter` + base64, and `qrcode` + base64) are an abstract
  parameter `enc : String → Except String String` producing the base64
  payload or an exception message; the data-URL prefixing and the
  wrapping of encoder exceptions into a 400 `HTTPException` are in
  `server.py` itself and are embedded faithfully;
* `uuid.uuid4()` and `datetime.now(...).isoformat()` are nondeterministic
  inputs, passed as explicit `fresh`/`now` arguments;
* Python's `str.strip()` is `pyStrip` below (whitespace at both ends;
  we model the ASCII whitespace characters recognised by
  `Char.isWhitespace`).
-/

/-- The shape shared by barcode and QR documents in `server.py`
(`BarcodeResponse` / `QRCodeResponse` and the dicts built in the
handlers).  The `image` field models `barcode_image` / `qrcode_image`,
the base64 data URL. -/
structure Record where
  id : String
  text : String
  image : String
  created_at : String
deriving DecidableEq, Repr

/-- A FastAPI `HTTPException`: status code and detail message. -/
structure HTTPError where
  status_code : Nat
  detail : String
deriving DecidableEq, Repr

/-- Core of Python's `str.strip()` on the character list: drop whitespace
from the front, then from the back. -/
def pyStripData (l : List Char) : List Char :=
  ((l.dropWhile Char.isWhitespace).reverse.dropWhile Char.isWhitespace).reverse

/-- Python's `str.strip()`: remove leading and trailing whitespace. -/
def pyStrip (s : String) : String :=
  String.mk (pyStripData s.data)

/-- Dropping a satisfied-prefix twice is the same as dropping it once. -/
theorem dropWhile_idem (p : Char → Bool) :
    ∀ l : List Char, (l.dropWhile p).dropWhile p = l.dropWhile p
  | [] => rfl
  | a :: l => by
    by_cases h : p a
    · simp only [List.dropWhile_cons, h, if_true]
      exact dropWhile_idem p l
    · simp [List.dropWhile_cons, h]

/-- `dropWhile` removes an initial segment: some list prepended to the
result gives back the input. -/
theorem dropWhile_eq_append (p : Char → Bool) :
    ∀ l : List Char, ∃ t, t ++ l.dropWhile p = l
  | [] => ⟨[], rfl⟩
  | a :: l => by
    by_cases h : p a
    · obtain ⟨t, ht⟩ := dropWhile_eq_append p l
      exact ⟨a :: t, by simp [List.dropWhile_cons, h, ht]⟩
    · exact ⟨[], by simp [List.dropWhile_cons, h]⟩

/-- If a list survives `dropWhile` unchanged, so does the result of
trimming its tail (the head, when present, is still not whitespace). -/
theorem dropWhile_of_trimRight (p : Char → Bool) (l : List Char)
    (hl : l.dropWhile p = l) :
    ((l.reverse.dropWhile p).reverse).dropWhile p = (l.reverse.dropWhile p).reverse := by
  cases l with
  | nil => simp
  | cons a as =>
    have ha : ¬ p a = true := by
      intro hpa
      have h1 : (a :: as).dropWhile p = as.dropWhile p := by
        simp [List.dropWhile_cons, hpa]
      have h2 : as.dropWhile p = a :: as := by rw [← h1, hl]
      have hlen : (as.dropWhile p).length ≤ as.length := by
        obtain ⟨t, ht⟩ := dropWhile_eq_append p as
        calc (as.dropWhile p).length ≤ t.length + (as.dropWhile p).length := by omega
          _ = as.length := by rw [← List.length_append, ht]
      rw [h2] at hlen
      simp at hlen
    obtain ⟨t, ht⟩ := dropWhile_eq_append p (a :: as).reverse
    set r := (a :: as).reverse.dropWhile p with hr
    have hrev : r.reverse ++ t.reverse = a :: as := by
      have := congrArg List.reverse ht
      simpa [List.reverse_append] using this
    cases hcr : r.reverse with
    | nil => simp [hcr]
    | cons x xs =>
      rw [hcr] at hrev
      have hx : x = a := by
        have : x :: (xs ++ t.reverse) = a :: as := by simpa using hrev
        exact (List.cons.injEq _ _ _ _ ▸ this).1
      subst hx
      simp [List.dropWhile_cons, ha]

/-- Trimming twice is the same as trimming once (list level). -/
theorem pyStripData_idem (l : List Char) :
    pyStripData (pyStripData l) = pyStripData l := by
  set w := Char.isWhitespace
  set d := l.dropWhile w with hd
  set m := (d.reverse.dropWhile w).reverse with hm
  have hstrip : pyStripData l = m := rfl
  have hdd : d.dropWhile w = d := dropWhile_idem w l
  have h1 : m.dropWhile w = m := dropWhile_of_trimRight w d hdd
  have h2 : m.reverse.dropWhile w = m.reverse := by
    rw [hm, List.reverse_reverse]
    exact dropWhile_idem w d.reverse
  show ((m.dropWhile w).reverse.dropWhile w).reverse = m
  rw [h1, h2, List.reverse_reverse]

/-- Python's `strip` is idempotent. -/
theorem pyStrip_idem (s : String) : pyStrip (pyStrip s) = pyStrip s := by
  show String.mk (pyStripData (String.mk (pyStripData s.data)).data) = _
  rw [show (String.mk (pyStripData s.data)).data = pyStripData s.data from rfl,
    pyStripData_idem]
  rfl

/-!
## Embedded operations

`server.py` handlers.  Each handler that touches the store takes the
pre-state of its collection and returns the response
(`Except HTTPError _`) together with the post-state.
-/

/-- `generate_barcode_image` (`server.py:67-82`): run the external
Code128 encoder; on success prefix the base64 payload with the data-URL
header, on any exception raise `HTTPException(400, "Error generating
barcode: ...")`. -/
def generate_barcode_image (enc : String → Except String String)
    (text : String) : Except HTTPError String :=
  match enc text with
  | .ok b64 => .ok ("data:image/png;base64," ++ b64)
  | .error e => .error ⟨400, "Error generating barcode: " ++ e⟩

/-- `generate_qrcode_image` (`server.py:85-105`): same shape with the QR
encoder and detail text. -/
def generate_qrcode_image (enc : String → Except String String)
    (text : String) : Except HTTPError String :=
  match enc text with
  | .ok b64 => .ok ("data:image/png;base64," ++ b64)
  | .error e => .error ⟨400, "Error generating QR code: " ++ e⟩

/-- `prepare_for_mongo` (`server.py:107-112`): the handlers always store
`created_at` as an ISO string already, so the `isinstance(..., str)`
branch returns the document unchanged. -/
def prepare_for_mongo (r : Record) : Record := r

/-- `parse_from_mongo` (`server.py:114-118`): both branches return the
item unchanged. -/
def parse_from_mongo (r : Record) : Record := r

/-- `generate_barcode` (`server.py:125-155`).  `enc` is the external
encoder, `ins` the outcome of `insert_one` (`.error` = the store raised),
`fresh` the `uuid.uuid4()` value, `now` the `datetime.now(...).isoformat()`
value, `store` the `db.barcodes` collection, `text` the request body text.
Validation rejects empty trimmed text with 400; an `HTTPException` from
the encoder is re-raised unchanged; any other exception (the store)
becomes a 500. -/
def generate_barcode (enc : String → Except String String)
    (ins : Except String Unit) (fresh now : String)
    (store : List Record) (text : String) :
    Except HTTPError Record × List Record :=
  if pyStrip text = "" then
    (.error ⟨400, "Text cannot be empty"⟩, store)
  else
    match generate_barcode_image enc (pyStrip text) with
    | .error e => (.error e, store)
    | .ok img =>
      let doc : Record := ⟨fresh, pyStrip text, img, now⟩
      match ins with
      | .error e => (.error ⟨500, "Error generating barcode: " ++ e⟩, store)
      | .ok _ => (.ok doc, store ++ [prepare_for_mongo doc])

/-- `generate_qrcode` (`server.py:194-215`): identical control flow on
`db.qrcodes` with QR detail strings. -/
def generate_qrcode (enc : String → Except String String)
    (ins : Except String Unit) (fresh now : String)
    (store : List Record) (text : String) :
    Except HTTPError Record × List Record :=
  if pyStrip text = "" then
    (.error ⟨400, "Text cannot be empty"⟩, store)
  else
    match generate_qrcode_image enc (pyStrip text) with
    | .error e => (.error e, store)
    | .ok img =>
      let doc : Record := ⟨fresh, pyStrip text, img, now⟩
      match ins with
      | .error e => (.error ⟨500, "Error generating QR code: " ++ e⟩, store)
      | .ok _ => (.ok doc, store ++ [prepare_for_mongo doc])

/-- Mongo's `find_one({"id": i})`: first document whose `id` field is `i`,
in natural (insertion) order. -/
def find_one (store : List Record) (i : String) : Option Record :=
  store.find? (fun r => r.id == i)

/-- `get_barcode` (`server.py:167-178`): 404 when absent, otherwise the
parsed document.  Reads do not change the store. -/
def get_barcode (store : List Record) (i : String) : Except HTTPError Record :=
  match find_one store i with
  | none => .error ⟨404, "Barcode not found"⟩
  | some r => .ok (parse_from_mongo r)

/-- `get_qrcode` (`server.py:229-240`). -/
def get_qrcode (store : List Record) (i : String) : Except HTTPError Record :=
  match find_one store i with
  | none => .error ⟨404, "QR code not found"⟩
  | some r => .ok (parse_from_mongo r)

/-- Mongo's `delete_one({"id": i})`: remove the first document with that
`id`; return the post-state and `deleted_count` (0 or 1). -/
def delete_one : List Record → String → List Record × Nat
  | [], _ => ([], 0)
  | r :: rest, i =>
    if r.id == i then (rest, 1)
    else
      let p := delete_one rest i
      (r :: p.1, p.2)

/-- `delete_barcode` (`server.py:180-191`): run `delete_one`; 404 when
`deleted_count == 0`, success message otherwise. -/
def delete_barcode (store : List Record) (i : String) :
    List Record × Except HTTPError String :=
  let p := delete_one store i
  if p.2 = 0 then
    (p.1, .error ⟨404, "Barcode not found"⟩)
  else
    (p.1, .ok "Barcode deleted successfully")

/-- `delete_qrcode` (`server.py:243-254`). -/
def delete_qrcode (store : List Record) (i : String) :
    List Record × Except HTTPError String :=
  let p := delete_one store i
  if p.2 = 0 then
    (p.1, .error ⟨404, "QR code not found"⟩)
  else
    (p.1, .ok "QR code deleted successfully")

/-- Mongo's sort key for `find().sort("created_at", -1)`: `a` may come
before `b` when `b`'s timestamp is at most `a`'s. -/
def byCreatedDesc (a b : Record) : Prop :=
  b.created_at ≤ a.created_at

instance : DecidableRel byCreatedDesc :=
  fun a b => inferInstanceAs (Decidable (b.created_at ≤ a.created_at))

instance : IsTotal Record byCreatedDesc :=
  ⟨fun a b => le_total b.created_at a.created_at⟩

instance : IsTrans Record byCreatedDesc :=
  ⟨fun _ _ _ hab hbc => le_trans hbc hab⟩

/-- `get_all_barcodes` (`server.py:157-165`): every document of the
collection, sorted by `created_at` descending, no limit
(`to_list(length=None)`). -/
def get_all_barcodes (store : List Record) : Except HTTPError (List Record) :=
  .ok ((store.insertionSort byCreatedDesc).map parse_from_mongo)

/-- `get_all_qrcodes` (`server.py:218-226`). -/
def get_all_qrcodes (store : List Record) : Except HTTPError (List Record) :=
  .ok ((store.insertionSort byCreatedDesc).map parse_from_mongo)

/-- The whole database: the two disjoint collections. -/
structure DB where
  barcodes : List Record
  qrcodes : List Record
deriving DecidableEq, Repr

/-- `generate_barcode` at database level: it only touches `db.barcodes`. -/
def generateBarcodeDB (enc : String → Except String String)
    (ins : Except String Unit) (fresh now : String)
    (db : DB) (text : String) : Except HTTPError Record × DB :=
  let p := generate_barcode enc ins fresh now db.barcodes text
  (p.1, ⟨p.2, db.qrcodes⟩)

/-- `generate_qrcode` at database level: it only touches `db.qrcodes`. -/
def generateQrcodeDB (enc : String → Except String String)
    (ins : Except String Unit) (fresh now : String)
    (db : DB) (text : String) : Except HTTPError Record × DB :=
  let p := generate_qrcode enc ins fresh now db.qrcodes text
  (p.1, ⟨db.barcodes, p.2⟩)

/-- Database states reachable through the API from an empty store.  The
read-only endpoints (`get_*`, `get_all_*`) do not change the state, and a
generation request that fails leaves the handler before or instead of the
insert, so the state-changing steps are: a generation request (whatever
its outcome) and a deletion request (whatever its outcome). -/
inductive Reachable : DB → Prop
  | init : Reachable ⟨[], []⟩
  | genBarcode {db : DB} (enc : String → Except String String)
      (ins : Except String Unit) (fresh now text : String) :
      Reachable db →
      Reachable (generateBarcodeDB enc ins fresh now db text).2
  | genQrcode {db : DB} (enc : String → Except String String)
      (ins : Except String Unit) (fresh now text : String) :
      Reachable db →
      Reachable (generateQrcodeDB enc ins fresh now db text).2
  | delBarcode {db : DB} (i : String) :
      Reachable db →
      Reachable ⟨(delete_barcode db.barcodes i).1, db.qrcodes⟩
  | delQrcode {db : DB} (i : String) :
      Reachable db →
      Reachable ⟨db.barcodes, (delete_qrcode db.qrcodes i).1⟩

/-- The data-model invariant of §3 of the spec on one database state:
every stored document's text is non-empty after trimming. -/
def textInvariant (db : DB) : Prop :=
  (∀ r ∈ db.barcodes, pyStrip r.text ≠ "") ∧
  (∀ r ∈ db.qrcodes, pyStrip r.text ≠ "")

/-- No API operation rewrites an existing document in place: a document
present after a generation call is either a document of the pre-state,
unchanged in every field, or the single freshly created record of that
call; and a document present after `delete_one` is a document of the
pre-state, unchanged in every field. -/
def noRecordUpdates : Prop :=
  (∀ (enc : String → Except String String) (ins : Except String Unit)
      (fresh now : String) (store : List Record) (text : String),
    ∀ x ∈ (generate_barcode enc ins fresh now store text).2,
      x ∈ store ∨ (generate_barcode enc ins fresh now store text).1 = .ok x) ∧
  (∀ (enc : String → Except String String) (ins : Except String Unit)
      (fresh now : String) (store : List Record) (text : String),
    ∀ x ∈ (generate_qrcode enc ins fresh now store text).2,
      x ∈ store ∨ (generate_qrcode enc ins fresh now store text).1 = .ok x) ∧
  (∀ (store : List Record) (i : String),
    ∀ x ∈ (delete_one store i).1, x ∈ store)

/-!
## Supporting lemmas
-/

/-- Characterisation of a successful `generate_barcode` call: the text
passed validation, the encoder succeeded, the insert succeeded, the
returned record carries the fresh id, the trimmed text, the data URL and
the timestamp, and the store gained exactly that record at the end. -/
theorem generate_barcode_ok {enc : String → Except String String}
    {ins : Except String Unit} {fresh now : String}
    {store : List Record} {text : String} {r : Record} {store' : List Record}
    (h : generate_barcode enc ins fresh now store text = (.ok r, store')) :
    pyStrip text ≠ "" ∧ r.id = fresh ∧ r.text = pyStrip text ∧
      r.created_at = now ∧ store' = store ++ [r] ∧
      ∃ img, enc (pyStrip text) = .ok img ∧
        r.image = "data:image/png;base64," ++ img := by
  by_cases he : pyStrip text = ""
  · simp [generate_barcode, he] at h
  · cases henc : enc (pyStrip text) with
    | error e => simp [generate_barcode, generate_barcode_image, he, henc] at h
    | ok img =>
      cases ins with
      | error e => simp [generate_barcode, generate_barcode_image, he, henc] at h
      | ok u =>
        simp [generate_barcode, generate_barcode_image, he, henc,
          prepare_for_mongo] at h
        obtain ⟨h1, h2⟩ := h
        subst h1
        exact ⟨he, rfl, rfl, rfl, h2.symm, img, rfl, rfl⟩

/-- Same characterisation for `generate_qrcode`. -/
theorem generate_qrcode_ok {enc : String → Except String String}
    {ins : Except String Unit} {fresh now : String}
    {store : List Record} {text : String} {r : Record} {store' : List Record}
    (h : generate_qrcode enc ins fresh now store text = (.ok r, store')) :
    pyStrip text ≠ "" ∧ r.id = fresh ∧ r.text = pyStrip text ∧
      r.created_at = now ∧ store' = store ++ [r] ∧
      ∃ img, enc (pyStrip text) = .ok img ∧
        r.image = "data:image/png;base64," ++ img := by
  by_cases he : pyStrip text = ""
  · simp [generate_qrcode, he] at h
  · cases henc : enc (pyStrip text) with
    | error e => simp [generate_qrcode, generate_qrcode_image, he, henc] at h
    | ok img =>
      cases ins with
      | error e => simp [generate_qrcode, generate_qrcode_image, he, henc] at h
      | ok u =>
        simp [generate_qrcode, generate_qrcode_image, he, henc,
          prepare_for_mongo] at h
        obtain ⟨h1, h2⟩ := h
        subst h1
        exact ⟨he, rfl, rfl, rfl, h2.symm, img, rfl, rfl⟩

/-- A generation request that does not return a record leaves the
collection unchanged (validation, the encoder and a failed insert all
happen before any state change is visible). -/
theorem generate_barcode_error_frame (enc : String → Except String String)
    (ins : Except String Unit) (fresh now : String)
    (store : List Record) (text : String) (e : HTTPError)
    (h : (generate_barcode enc ins fresh now store text).1 = .error e) :
    (generate_barcode enc ins fresh now store text).2 = store := by
  by_cases hv : pyStrip text = ""
  · simp [generate_barcode, hv]
  · cases henc : enc (pyStrip text) with
    | error m => simp [generate_barcode, generate_barcode_image, hv, henc]
    | ok img =>
      cases ins with
      | error m => simp [generate_barcode, generate_barcode_image, hv, henc]
      | ok u => simp [generate_barcode, generate_barcode_image, hv, henc] at h

/-- Same frame fact for the QR generator. -/
theorem generate_qrcode_error_frame (enc : String → Except String String)
    (ins : Except String Unit) (fresh now : String)
    (store : List Record) (text : String) (e : HTTPError)
    (h : (generate_qrcode enc ins fresh now store text).1 = .error e) :
    (generate_qrcode enc ins fresh now store text).2 = store := by
  by_cases hv : pyStrip text = ""
  · simp [generate_qrcode, hv]
  · cases henc : enc (pyStrip text) with
    | error m => simp [generate_qrcode, generate_qrcode_image, hv, henc]
    | ok img =>
      cases ins with
      | error m => simp [generate_qrcode, generate_qrcode_image, hv, henc]
      | ok u => simp [generate_qrcode, generate_qrcode_image, hv, henc] at h

/-- When no document carries the id, `delete_one` removes nothing and
reports count 0. -/
theorem delete_one_no_match (i : String) :
    ∀ store : List Record, (∀ r ∈ store, r.id ≠ i) →
      delete_one store i = (store, 0)
  | [], _ => rfl
  | a :: rest, h => by
    have ha : ¬ (a.id == i) = true := by
      simpa using h a (List.mem_cons_self a rest)
    have hrest := delete_one_no_match i rest (fun r hr => h r (List.mem_cons_of_mem a hr))
    simp [delete_one, ha, hrest]

/-- Every document surviving `delete_one` was in the collection before. -/
theorem delete_one_subset (i : String) :
    ∀ store : List Record, ∀ r ∈ (delete_one store i).1, r ∈ store
  | [], r, hr => by simp [delete_one] at hr
  | a :: rest, r, hr => by
    by_cases ha : (a.id == i) = true
    · simp only [delete_one, ha, if_true] at hr
      exact List.mem_cons_of_mem a hr
    · simp only [delete_one, ha, if_false] at hr
      rcases List.mem_cons.mp hr with h | h
      · exact h ▸ List.mem_cons_self a rest
      · exact List.mem_cons_of_mem a (delete_one_subset i rest r h)

/-- When the collection holds at most one document with the id,
no surviving document carries that id after `delete_one`. -/
theorem delete_one_removes_id (i : String) :
    ∀ store : List Record,
      store.countP (fun r => r.id == i) ≤ 1 →
      ∀ r ∈ (delete_one store i).1, r.id ≠ i
  | [], _, r, hr => by simp [delete_one] at hr
  | a :: rest, hcount, r, hr => by
    by_cases ha : (a.id == i) = true
    · simp only [delete_one, ha, if_true] at hr
      have hstep : (a :: rest).countP (fun r => r.id == i)
          = rest.countP (fun r => r.id == i) + 1 :=
        List.countP_cons_of_pos _ rest ha
      have hc : rest.countP (fun r => r.id == i) = 0 := by omega
      have := List.countP_eq_zero.mp hc r hr
      simpa using this
    · simp [delete_one, ha] at hr
      have hstep : (a :: rest).countP (fun r => r.id == i)
          = rest.countP (fun r => r.id == i) :=
        List.countP_cons_of_neg _ rest ha
      have hc : rest.countP (fun r => r.id == i) ≤ 1 := by omega
      rcases hr with h | h
      · subst h
        simpa using ha
      · exact delete_one_removes_id i rest hc r h

/-- The handler-level 400 detail for an encoder failure can never equal
the validation detail: the two messages differ (already in length). -/
theorem barcode_encoder_detail_ne (e : String) :
    ("Error generating barcode: " ++ e) ≠ "Text cannot be empty" := by
  intro h
  have hlen := congrArg String.length h
  rw [String.length_append] at hlen
  have h1 : ("Error generating barcode: " : String).length = 26 := rfl
  have h2 : ("Text cannot be empty" : String).length = 20 := rfl
  omega

/-- `parse_from_mongo` maps a list of documents to itself. -/
theorem map_parse_from_mongo : ∀ l : List Record, l.map parse_from_mongo = l
  | [] => rfl
  | a :: l => by simp [parse_from_mongo, map_parse_from_mongo l]

/-!
## Claims
-/

/-- C1: a generation request (barcode or QR) whose text is empty after
trimming gets the 400 validation error and the database is unchanged —
no record is inserted into either collection. -/
theorem c1_empty_text_rejected (enc : String → Except String String)
    (ins : Except String Unit) (fresh now : String) (db : DB) (text : String)
    (h : pyStrip text = "") :
    generateBarcodeDB enc ins fresh now db text
      = (.error ⟨400, "Text cannot be empty"⟩, db) ∧
    generateQrcodeDB enc ins fresh now db text
      = (.error ⟨400, "Text cannot be empty"⟩, db) := by
  constructor
  · simp [generateBarcodeDB, generate_barcode, h]
  · simp [generateQrcodeDB, generate_qrcode, h]

/-- C1 witness: the concrete whitespace-only request `"  "` against a
one-record database is rejected and leaves the database as it was. -/
theorem c1_empty_text_rejected_witness :
    pyStrip "  " = "" ∧
    (generateBarcodeDB (fun _ => .ok "B64") (.ok ()) "u2" "t2"
        ⟨[⟨"u1", "hi", "img", "t1"⟩], []⟩ "  "
      = (.error ⟨400, "Text cannot be empty"⟩,
         ⟨[⟨"u1", "hi", "img", "t1"⟩], []⟩) ∧
     generateQrcodeDB (fun _ => .ok "B64") (.ok ()) "u2" "t2"
        ⟨[⟨"u1", "hi", "img", "t1"⟩], []⟩ "  "
      = (.error ⟨400, "Text cannot be empty"⟩,
         ⟨[⟨"u1", "hi", "img", "t1"⟩], []⟩)) :=
  ⟨by decide,
   c1_empty_text_rejected (fun _ => .ok "B64") (.ok ()) "u2" "t2"
     ⟨[⟨"u1", "hi", "img", "t1"⟩], []⟩ "  " (by decide)⟩

/-- C2 counterexample: with non-empty trimmed text `"hello"`, an encoder
failure surfaces as status 400 (the `HTTPException` raised inside
`generate_barcode_image` is re-raised unchanged by the handler), not as
the 500 the claim asserts. -/
theorem c2_counterexample :
    (generate_barcode (fun _ => .error "boom") (.ok ()) "u1" "t1" [] "hello").1
      = .error ⟨400, "Error generating barcode: boom"⟩ ∧
    (400 : Nat) ≠ 500 :=
  ⟨rfl, by decide⟩

/-- C2 (amended): for non-empty trimmed text, a store failure during the
insert surfaces as a 500 server error, while an encoder failure surfaces
as a 400 client error carrying the encoder's message — for both the
barcode and the QR endpoint. -/
theorem c2_store_500_encoder_400 (enc : String → Except String String)
    (ins : Except String Unit) (fresh now : String)
    (store : List Record) (text : String) (h : pyStrip text ≠ "") :
    (∀ e, enc (pyStrip text) = .error e →
      (generate_barcode enc ins fresh now store text).1
        = .error ⟨400, "Error generating barcode: " ++ e⟩ ∧
      (generate_qrcode enc ins fresh now store text).1
        = .error ⟨400, "Error generating QR code: " ++ e⟩) ∧
    (∀ img e, enc (pyStrip text) = .ok img → ins = .error e →
      (generate_barcode enc ins fresh now store text).1
        = .error ⟨500, "Error generating barcode: " ++ e⟩ ∧
      (generate_qrcode enc ins fresh now store text).1
        = .error ⟨500, "Error generating QR code: " ++ e⟩) := by
  constructor
  · intro e henc
    constructor
    · simp [generate_barcode, generate_barcode_image, h, henc]
    · simp [generate_qrcode, generate_qrcode_image, h, henc]
  · intro img e henc hins
    subst hins
    constructor
    · simp [generate_barcode, generate_barcode_image, h, henc]
    · simp [generate_qrcode, generate_qrcode_image, h, henc]

/-- C2 witness: concrete instances of both halves — a failing encoder
gives 400, a failing insert gives 500. -/
theorem c2_store_500_encoder_400_witness :
    ((generate_barcode (fun _ => .error "enc down") (.ok ()) "u1" "t1" [] "x").1
      = .error ⟨400, "Error generating barcode: enc down"⟩ ∧
     (generate_qrcode (fun _ => .error "enc down") (.ok ()) "u1" "t1" [] "x").1
      = .error ⟨400, "Error generating QR code: enc down"⟩) ∧
    ((generate_barcode (fun _ => .ok "B64") (.error "db down") "u1" "t1" [] "x").1
      = .error ⟨500, "Error generating barcode: db down"⟩ ∧
     (generate_qrcode (fun _ => .ok "B64") (.error "db down") "u1" "t1" [] "x").1
      = .error ⟨500, "Error generating QR code: db down"⟩) :=
  ⟨(c2_store_500_encoder_400 (fun _ => .error "enc down") (.ok ()) "u1" "t1" []
      "x" (by decide)).1 "enc down" rfl,
   (c2_store_500_encoder_400 (fun _ => .ok "B64") (.error "db down") "u1" "t1" []
      "x" (by decide)).2 "B64" "db down" rfl rfl⟩

/-- C3 counterexample: for the input `" a "` (non-empty after trimming)
the generation succeeds, but the `text` field of the created record is
the trimmed string `"a"`, not the original input `" a "` the claim
asserts. -/
theorem c3_counterexample :
    (generate_barcode (fun _ => .ok "B64") (.ok ()) "u1" "t1" [] " a ").1
      = .ok ⟨"u1", "a", "data:image/png;base64,B64", "t1"⟩ ∧
    ("a" : String) ≠ " a " :=
  ⟨rfl, by decide⟩

/-- C3 (amended): for every successful generation request (barcode or
QR), the `text` field of the created record equals the **trimmed** input
`text.strip()` — in particular it equals the original input exactly when
the input carries no leading or trailing whitespace — and the stored
document is the very record returned. -/
theorem c3_text_is_trimmed (enc : String → Except String String)
    (ins : Except String Unit) (fresh now : String)
    (store : List Record) (text : String) (r : Record) (store' : List Record) :
    (generate_barcode enc ins fresh now store text = (.ok r, store') →
      r.text = pyStrip text ∧ store' = store ++ [r]) ∧
    (generate_qrcode enc ins fresh now store text = (.ok r, store') →
      r.text = pyStrip text ∧ store' = store ++ [r]) := by
  constructor
  · intro h
    obtain ⟨-, -, htext, -, hstore, -⟩ := generate_barcode_ok h
    exact ⟨htext, hstore⟩
  · intro h
    obtain ⟨-, -, htext, -, hstore, -⟩ := generate_qrcode_ok h
    exact ⟨htext, hstore⟩

/-- C3 witness: generating from the concrete input `" a "` stores and
returns the trimmed text `"a"`. -/
theorem c3_text_is_trimmed_witness :
    ("a" : String) = pyStrip " a " ∧
    ([⟨"u1", "a", "data:image/png;base64,B64", "t1"⟩] : List Record)
      = [] ++ [⟨"u1", "a", "data:image/png;base64,B64", "t1"⟩] :=
  (c3_text_is_trimmed (fun _ => .ok "B64") (.ok ()) "u1" "t1" [] " a "
    ⟨"u1", "a", "data:image/png;base64,B64", "t1"⟩
    [⟨"u1", "a", "data:image/png;base64,B64", "t1"⟩]).1 rfl

/-- C4: after a successful barcode or QR generation whose fresh id does
not collide with any stored id, an immediate retrieval by the returned
record's id on the same collection returns exactly that record — same
`id`, `text`, `image` and `created_at`. -/
theorem c4_get_after_generate (enc : String → Except String String)
    (ins : Except String Unit) (fresh now : String)
    (store : List Record) (text : String) (r : Record) (store' : List Record)
    (hfresh : ∀ x ∈ store, x.id ≠ fresh) :
    (generate_barcode enc ins fresh now store text = (.ok r, store') →
      get_barcode store' r.id = .ok r) ∧
    (generate_qrcode enc ins fresh now store text = (.ok r, store') →
      get_qrcode store' r.id = .ok r) := by
  have key : r.id = fresh → store' = store ++ [r] →
      find_one store' r.id = some r := by
    intro hid hstore
    subst hstore
    have hnone : store.find? (fun x => x.id == r.id) = none := by
      rw [List.find?_eq_none]
      intro x hx
      simpa [hid] using hfresh x hx
    simp [find_one, List.find?_append, hnone]
  constructor
  · intro h
    obtain ⟨-, hid, -, -, hstore, -⟩ := generate_barcode_ok h
    simp [get_barcode, key hid hstore, parse_from_mongo]
  · intro h
    obtain ⟨-, hid, -, -, hstore, -⟩ := generate_qrcode_ok h
    simp [get_qrcode, key hid hstore, parse_from_mongo]

/-- C4 witness: generate into a store already holding one record with a
different id, then retrieve the new id. -/
theorem c4_get_after_generate_witness :
    get_barcode [⟨"u1", "old", "img", "t1"⟩,
        ⟨"u2", "hi", "data:image/png;base64,B64", "t2"⟩]
      (Record.id ⟨"u2", "hi", "data:image/png;base64,B64", "t2"⟩)
      = .ok ⟨"u2", "hi", "data:image/png;base64,B64", "t2"⟩ :=
  (c4_get_after_generate (fun _ => .ok "B64") (.ok ()) "u2" "t2"
    [⟨"u1", "old", "img", "t1"⟩] "hi"
    ⟨"u2", "hi", "data:image/png;base64,B64", "t2"⟩
    [⟨"u1", "old", "img", "t1"⟩, ⟨"u2", "hi", "data:image/png;base64,B64", "t2"⟩]
    (by decide)).1 rfl

/-- C5: when the collection holds at most one document with the id (the
uuid-uniqueness invariant), a successful delete of that id makes a
subsequent retrieval of the same id return the 404 not-found error —
for both the barcode and the QR endpoints. -/
theorem c5_get_after_delete (store : List Record) (i : String)
    (huniq : store.countP (fun r => r.id == i) ≤ 1) :
    ((delete_barcode store i).2 = .ok "Barcode deleted successfully" →
      get_barcode (delete_barcode store i).1 i
        = .error ⟨404, "Barcode not found"⟩) ∧
    ((delete_qrcode store i).2 = .ok "QR code deleted successfully" →
      get_qrcode (delete_qrcode store i).1 i
        = .error ⟨404, "QR code not found"⟩) := by
  have hnone : (delete_one store i).1.find? (fun r => r.id == i) = none := by
    rw [List.find?_eq_none]
    intro x hx
    simpa using delete_one_removes_id i store huniq x hx
  constructor
  · intro hdel
    by_cases hz : (delete_one store i).2 = 0
    · simp [delete_barcode, hz] at hdel
    · simp [delete_barcode, hz, get_barcode, find_one, hnone]
  · intro hdel
    by_cases hz : (delete_one store i).2 = 0
    · simp [delete_qrcode, hz] at hdel
    · simp [delete_qrcode, hz, get_qrcode, find_one, hnone]

/-- C5 witness: delete the only record of a concrete one-record store,
then look it up. -/
theorem c5_get_after_delete_witness :
    get_barcode (delete_barcode [⟨"u1", "hi", "img", "t1"⟩] "u1").1 "u1"
      = .error ⟨404, "Barcode not found"⟩ :=
  (c5_get_after_delete [⟨"u1", "hi", "img", "t1"⟩] "u1" (by decide)).1 rfl

/-- C6: for every store state, the listing endpoints return all records
of the collection — a permutation of the store, so nothing is dropped or
truncated — sorted by `created_at` descending. -/
theorem c6_list_all_sorted (store : List Record) :
    ∃ l, get_all_barcodes store = .ok l ∧ get_all_qrcodes store = .ok l ∧
      l.Perm store ∧ l.Sorted byCreatedDesc := by
  refine ⟨store.insertionSort byCreatedDesc, ?_, ?_, ?_, ?_⟩
  · simp [get_all_barcodes, map_parse_from_mongo]
  · simp [get_all_qrcodes, map_parse_from_mongo]
  · exact List.perm_insertionSort byCreatedDesc store
  · exact List.sorted_insertionSort byCreatedDesc store

/-- C7: for an id absent from the collection, retrieval and deletion
both return the 404 not-found error, and deletion leaves the collection
exactly as it was (retrieval reads only). -/
theorem c7_missing_id_not_found (store : List Record) (i : String)
    (habsent : ∀ r ∈ store, r.id ≠ i) :
    get_barcode store i = .error ⟨404, "Barcode not found"⟩ ∧
    delete_barcode store i = (store, .error ⟨404, "Barcode not found"⟩) ∧
    get_qrcode store i = .error ⟨404, "QR code not found"⟩ ∧
    delete_qrcode store i = (store, .error ⟨404, "QR code not found"⟩) := by
  have hnone : store.find? (fun r => r.id == i) = none := by
    rw [List.find?_eq_none]
    intro x hx
    simpa using habsent x hx
  have hdel : delete_one store i = (store, 0) := delete_one_no_match i store habsent
  refine ⟨?_, ?_, ?_, ?_⟩
  · simp [get_barcode, find_one, hnone]
  · simp [delete_barcode, hdel]
  · simp [get_qrcode, find_one, hnone]
  · simp [delete_qrcode, hdel]

/-- C7 witness: the id `"zz"` is absent from a concrete one-record
store; both endpoints 404 and the store survives the delete call. -/
theorem c7_missing_id_not_found_witness :
    get_barcode [⟨"u1", "hi", "img", "t1"⟩] "zz"
      = .error ⟨404, "Barcode not found"⟩ ∧
    delete_barcode [⟨"u1", "hi", "img", "t1"⟩] "zz"
      = ([⟨"u1", "hi", "img", "t1"⟩], .error ⟨404, "Barcode not found"⟩) ∧
    get_qrcode [⟨"u1", "hi", "img", "t1"⟩] "zz"
      = .error ⟨404, "QR code not found"⟩ ∧
    delete_qrcode [⟨"u1", "hi", "img", "t1"⟩] "zz"
      = ([⟨"u1", "hi", "img", "t1"⟩], .error ⟨404, "QR code not found"⟩) :=
  c7_missing_id_not_found [⟨"u1", "hi", "img", "t1"⟩] "zz" (by decide)

/-- Both components of `delete_barcode` come from `delete_one`; the
post-state is `delete_one`'s post-state in either branch. -/
theorem delete_barcode_fst (store : List Record) (i : String) :
    (delete_barcode store i).1 = (delete_one store i).1 := by
  by_cases h : (delete_one store i).2 = 0 <;> simp [delete_barcode, h]

/-- Same for `delete_qrcode`. -/
theorem delete_qrcode_fst (store : List Record) (i : String) :
    (delete_qrcode store i).1 = (delete_one store i).1 := by
  by_cases h : (delete_one store i).2 = 0 <;> simp [delete_qrcode, h]

/-- Membership in the post-state of `generate_barcode`: a document is
either an unchanged document of the pre-state, or the single freshly
created record, whose text is non-empty even after another trim. -/
theorem generate_barcode_mem (enc : String → Except String String)
    (ins : Except String Unit) (fresh now : String)
    (store : List Record) (text : String) :
    ∀ x ∈ (generate_barcode enc ins fresh now store text).2,
      x ∈ store ∨ (pyStrip x.text ≠ "" ∧
        (generate_barcode enc ins fresh now store text).1 = .ok x) := by
  intro x hx
  by_cases hv : pyStrip text = ""
  · left
    simpa [generate_barcode, hv] using hx
  · cases henc : enc (pyStrip text) with
    | error e =>
      left
      simpa [generate_barcode, generate_barcode_image, hv, henc] using hx
    | ok img =>
      cases ins with
      | error e =>
        left
        simpa [generate_barcode, generate_barcode_image, hv, henc] using hx
      | ok u =>
        have hx' : x ∈ store ++
            [(⟨fresh, pyStrip text, "data:image/png;base64," ++ img, now⟩ : Record)] := by
          simpa [generate_barcode, generate_barcode_image, hv, henc,
            prepare_for_mongo] using hx
        rcases List.mem_append.mp hx' with hmem | hmem
        · exact Or.inl hmem
        · right
          have hxe : x = ⟨fresh, pyStrip text, "data:image/png;base64," ++ img, now⟩ := by
            simpa using hmem
          subst hxe
          refine ⟨?_, ?_⟩
          · show pyStrip (pyStrip text) ≠ ""
            rw [pyStrip_idem]
            exact hv
          · simp [generate_barcode, generate_barcode_image, hv, henc]

/-- Same membership fact for `generate_qrcode`. -/
theorem generate_qrcode_mem (enc : String → Except String String)
    (ins : Except String Unit) (fresh now : String)
    (store : List Record) (text : String) :
    ∀ x ∈ (generate_qrcode enc ins fresh now store text).2,
      x ∈ store ∨ (pyStrip x.text ≠ "" ∧
        (generate_qrcode enc ins fresh now store text).1 = .ok x) := by
  intro x hx
  by_cases hv : pyStrip text = ""
  · left
    simpa [generate_qrcode, hv] using hx
  · cases henc : enc (pyStrip text) with
    | error e =>
      left
      simpa [generate_qrcode, generate_qrcode_image, hv, henc] using hx
    | ok img =>
      cases ins with
      | error e =>
        left
        simpa [generate_qrcode, generate_qrcode_image, hv, henc] using hx
      | ok u =>
        have hx' : x ∈ store ++
            [(⟨fresh, pyStrip text, "data:image/png;base64," ++ img, now⟩ : Record)] := by
          simpa [generate_qrcode, generate_qrcode_image, hv, henc,
            prepare_for_mongo] using hx
        rcases List.mem_append.mp hx' with hmem | hmem
        · exact Or.inl hmem
        · right
          have hxe : x = ⟨fresh, pyStrip text, "data:image/png;base64," ++ img, now⟩ := by
            simpa using hmem
          subst hxe
          refine ⟨?_, ?_⟩
          · show pyStrip (pyStrip text) ≠ ""
            rw [pyStrip_idem]
            exact hv
          · simp [generate_qrcode, generate_qrcode_image, hv, henc]

/-- C8: in every database state reachable through the API, every stored
document has text that is non-empty after trimming, and no operation
ever updates an existing document — documents are only created whole by
a generation request or removed whole by a delete. -/
theorem c8_invariant_no_updates (db : DB) (h : Reachable db) :
    textInvariant db ∧ noRecordUpdates := by
  have hnru : noRecordUpdates := by
    refine ⟨?_, ?_, ?_⟩
    · intro enc ins fresh now store text x hx
      rcases generate_barcode_mem enc ins fresh now store text x hx with h1 | h1
      · exact Or.inl h1
      · exact Or.inr h1.2
    · intro enc ins fresh now store text x hx
      rcases generate_qrcode_mem enc ins fresh now store text x hx with h1 | h1
      · exact Or.inl h1
      · exact Or.inr h1.2
    · intro store i
      exact delete_one_subset i store
  refine ⟨?_, hnru⟩
  induction h with
  | init => exact ⟨by simp, by simp⟩
  | @genBarcode db0 enc ins fresh now text _ ih =>
    constructor
    · intro r hr
      have hr' : r ∈ (generate_barcode enc ins fresh now db0.barcodes text).2 := by
        simpa [generateBarcodeDB] using hr
      rcases generate_barcode_mem enc ins fresh now db0.barcodes text r hr' with h1 | h1
      · exact ih.1 r h1
      · exact h1.1
    · intro r hr
      exact ih.2 r (by simpa [generateBarcodeDB] using hr)
  | @genQrcode db0 enc ins fresh now text _ ih =>
    constructor
    · intro r hr
      exact ih.1 r (by simpa [generateQrcodeDB] using hr)
    · intro r hr
      have hr' : r ∈ (generate_qrcode enc ins fresh now db0.qrcodes text).2 := by
        simpa [generateQrcodeDB] using hr
      rcases generate_qrcode_mem enc ins fresh now db0.qrcodes text r hr' with h1 | h1
      · exact ih.2 r h1
      · exact h1.1
  | @delBarcode db0 i _ ih =>
    constructor
    · intro r hr
      have hr' : r ∈ (delete_one db0.barcodes i).1 := by
        rw [← delete_barcode_fst]
        exact hr
      exact ih.1 r (delete_one_subset i db0.barcodes r hr')
    · intro r hr
      exact ih.2 r hr
  | @delQrcode db0 i _ ih =>
    constructor
    · intro r hr
      exact ih.1 r hr
    · intro r hr
      have hr' : r ∈ (delete_one db0.qrcodes i).1 := by
        rw [← delete_qrcode_fst]
        exact hr
      exact ih.2 r (delete_one_subset i db0.qrcodes r hr')

/-- C8 witness: the state reached from the empty database by one
successful barcode generation satisfies the invariant. -/
theorem c8_invariant_no_updates_witness :
    textInvariant ⟨[⟨"u1", "hi", "data:image/png;base64,B64", "t1"⟩], []⟩ ∧
    noRecordUpdates :=
  c8_invariant_no_updates _
    (Reachable.genBarcode (fun _ => .ok "B64") (.ok ()) "u1" "t1" "hi"
      Reachable.init)

/-- C9: a successful generation inserts exactly one record, appended to
the collection of its own type — every previously stored record of that
type is still there, unchanged and in place — and the other type's
collection is exactly what it was. -/
theorem c9_insert_only_own_collection (enc : String → Except String String)
    (ins : Except String Unit) (fresh now : String)
    (db : DB) (text : String) (r : Record) (db' : DB) :
    (generateBarcodeDB enc ins fresh now db text = (.ok r, db') →
      db'.barcodes = db.barcodes ++ [r] ∧ db'.qrcodes = db.qrcodes) ∧
    (generateQrcodeDB enc ins fresh now db text = (.ok r, db') →
      db'.qrcodes = db.qrcodes ++ [r] ∧ db'.barcodes = db.barcodes) := by
  constructor
  · intro h
    have h1 : (generate_barcode enc ins fresh now db.barcodes text).1 = .ok r := by
      have := congrArg Prod.fst h
      simpa [generateBarcodeDB] using this
    have h2 : db' = ⟨(generate_barcode enc ins fresh now db.barcodes text).2,
        db.qrcodes⟩ := by
      have := congrArg Prod.snd h
      simpa [generateBarcodeDB] using this.symm
    have hpair : generate_barcode enc ins fresh now db.barcodes text
        = (.ok r, (generate_barcode enc ins fresh now db.barcodes text).2) := by
      rw [← h1]
    obtain ⟨-, -, -, -, hstore, -⟩ := generate_barcode_ok hpair
    rw [h2]
    exact ⟨hstore, rfl⟩
  · intro h
    have h1 : (generate_qrcode enc ins fresh now db.qrcodes text).1 = .ok r := by
      have := congrArg Prod.fst h
      simpa [generateQrcodeDB] using this
    have h2 : db' = ⟨db.barcodes,
        (generate_qrcode enc ins fresh now db.qrcodes text).2⟩ := by
      have := congrArg Prod.snd h
      simpa [generateQrcodeDB] using this.symm
    have hpair : generate_qrcode enc ins fresh now db.qrcodes text
        = (.ok r, (generate_qrcode enc ins fresh now db.qrcodes text).2) := by
      rw [← h1]
    obtain ⟨-, -, -, -, hstore, -⟩ := generate_qrcode_ok hpair
    rw [h2]
    exact ⟨hstore, rfl⟩

/-- C9 witness: a concrete successful barcode generation against a
database holding one barcode and one QR record appends to the barcode
collection and leaves the QR collection untouched. -/
theorem c9_insert_only_own_collection_witness :
    ([⟨"u1", "old", "img", "t1"⟩,
      ⟨"u2", "hi", "data:image/png;base64,B64", "t2"⟩] : List Record)
      = [⟨"u1", "old", "img", "t1"⟩]
        ++ [⟨"u2", "hi", "data:image/png;base64,B64", "t2"⟩] ∧
    ([⟨"q1", "qq", "imgq", "t0"⟩] : List Record) = [⟨"q1", "qq", "imgq", "t0"⟩] :=
  (c9_insert_only_own_collection (fun _ => .ok "B64") (.ok ()) "u2" "t2"
    ⟨[⟨"u1", "old", "img", "t1"⟩], [⟨"q1", "qq", "imgq", "t0"⟩]⟩ "hi"
    ⟨"u2", "hi", "data:image/png;base64,B64", "t2"⟩
    ⟨[⟨"u1", "old", "img", "t1"⟩,
      ⟨"u2", "hi", "data:image/png;base64,B64", "t2"⟩],
     [⟨"q1", "qq", "imgq", "t0"⟩]⟩).1 rfl

/-- The QR encoder-failure detail can never equal the validation detail
either (the lengths differ). -/
theorem qrcode_encoder_detail_ne (e : String) :
    ("Error generating QR code: " ++ e) ≠ "Text cannot be empty" := by
  intro h
  have hlen := congrArg String.length h
  rw [String.length_append] at hlen
  have h1 : ("Error generating QR code: " : String).length = 26 := rfl
  have h2 : ("Text cannot be empty" : String).length = 20 := rfl
  omega

/-- C10: validation in the generation endpoints depends only on the
emptiness of the trimmed text.  For any text that is non-empty after
trimming, neither endpoint ever answers with the validation 400; the
only handler-made 400 besides validation wraps an encoder exception (no
length check exists, so no 400 about a 255-character limit can arise);
and with a working encoder and store the request succeeds whatever the
length of the text. -/
theorem c10_no_length_limit (enc : String → Except String String)
    (ins : Except String Unit) (fresh now : String)
    (store : List Record) (text : String) (h : pyStrip text ≠ "") :
    ((generate_barcode enc ins fresh now store text).1
        ≠ .error ⟨400, "Text cannot be empty"⟩ ∧
     (generate_qrcode enc ins fresh now store text).1
        ≠ .error ⟨400, "Text cannot be empty"⟩) ∧
    (∀ st d, (generate_barcode enc ins fresh now store text).1 = .error ⟨st, d⟩ →
      st = 400 →
      ∃ e, enc (pyStrip text) = .error e ∧
        d = "Error generating barcode: " ++ e) ∧
    (∀ img, enc (pyStrip text) = .ok img → ins = .ok () →
      generate_barcode enc ins fresh now store text
        = (.ok ⟨fresh, pyStrip text, "data:image/png;base64," ++ img, now⟩,
           store ++ [⟨fresh, pyStrip text, "data:image/png;base64," ++ img, now⟩])) := by
  cases henc : enc (pyStrip text) with
  | error e =>
    refine ⟨⟨?_, ?_⟩, ?_, ?_⟩
    · intro hc
      have hd : ("Error generating barcode: " ++ e) = "Text cannot be empty" := by
        have := hc
        simp [generate_barcode, generate_barcode_image, h, henc,
          HTTPError.mk.injEq] at this
        exact this
      exact barcode_encoder_detail_ne e hd
    · intro hc
      have hd : ("Error generating QR code: " ++ e) = "Text cannot be empty" := by
        have := hc
        simp [generate_qrcode, generate_qrcode_image, h, henc,
          HTTPError.mk.injEq] at this
        exact this
      exact qrcode_encoder_detail_ne e hd
    · intro st d heq h400
      have h' := heq
      simp [generate_barcode, generate_barcode_image, h, henc,
        HTTPError.mk.injEq] at h'
      exact ⟨e, rfl, h'.2.symm⟩
    · intro img henc2
      simp at henc2
  | ok img0 =>
    cases ins with
    | error e =>
      refine ⟨⟨?_, ?_⟩, ?_, ?_⟩
      · simp [generate_barcode, generate_barcode_image, h, henc]
      · simp [generate_qrcode, generate_qrcode_image, h, henc]
      · intro st d heq h400
        have hst : st = 500 := by
          have h' := heq
          simp [generate_barcode, generate_barcode_image, h, henc,
            HTTPError.mk.injEq] at h'
          exact h'.1.symm
        omega
      · intro img henc2 hins
        simp at hins
    | ok u =>
      cases u
      refine ⟨⟨?_, ?_⟩, ?_, ?_⟩
      · simp [generate_barcode, generate_barcode_image, h, henc]
      · simp [generate_qrcode, generate_qrcode_image, h, henc]
      · intro st d heq h400
        exfalso
        simp [generate_barcode, generate_barcode_image, h, henc] at heq
      · intro img henc2 hins
        injection henc2 with h3
        subst h3
        simp [generate_barcode, generate_barcode_image, h, henc, prepare_for_mongo]

/-- C10 witness: a request of 256 identical characters — past the
255-character limit the test file expects — passes validation and
succeeds end to end. -/
theorem c10_no_length_limit_witness :
    pyStrip (String.mk (List.replicate 256 'a')) ≠ "" ∧
    generate_barcode (fun _ => .ok "B64") (.ok ()) "u1" "t1" []
        (String.mk (List.replicate 256 'a'))
      = (.ok ⟨"u1", pyStrip (String.mk (List.replicate 256 'a')),
              "data:image/png;base64,B64", "t1"⟩,
         [] ++ [⟨"u1", pyStrip (String.mk (List.replicate 256 'a')),
              "data:image/png;base64,B64", "t1"⟩]) :=
  have hne : pyStrip (String.mk (List.replicate 256 'a')) ≠ "" := by decide
  ⟨hne, (c10_no_length_limit (fun _ => .ok "B64") (.ok ()) "u1" "t1" []
      (String.mk (List.replicate 256 'a')) hne).2.2 "B64" rfl rfl⟩
